import Mathlib

/-!
# AI-Document-Search: the browser client `frontend/app.js`

A shallow embedding of the four event handlers of `frontend/app.js`
(upload, ask, load-stats, clear) as pure functions on an explicit page state.

* The DOM elements the script binds at its top are fields of `Page`.
* Every `await` is resolved by an outcome the environment supplies
  (`FetchOutcome`); each handler is run in isolation, from its first statement
  to its last, with no other event interleaved at its suspension points.
* `Date.now()` readings and the answer of `confirm` are arguments.
* The Number type of the language and its operations are arguments
  (`Numbers`), as is the conversion of strings to numbers (`strPos`).
* Requests, console output and pending timeouts are recorded in the page
  state, so that "no request is issued" or "the error is logged" can be stated.
* Message markup is kept as the string assigned to `innerHTML`; it is not
  parsed, so nothing is said about what a browser renders from it, and markup
  is taken to carry no `id` attribute of its own.
-/

set_option autoImplicit false

namespace DocSearch

/-! ## JavaScript values -/

/-- The Number type of the language (IEEE 754 doubles) as far as the script
uses it: the type `N` of number values and the operations on it. -/
structure Numbers (N : Type) where
  /-- The value of the literal `0`, of ToNumber(null) and of ToNumber(false). -/
  zero : N
  /-- The value of ToNumber(true). -/
  one : N
  /-- The value NaN, also ToNumber(undefined). -/
  nan : N
  /-- The operator `+` on two numbers. -/
  add : N → N → N
  /-- The operation Number::toString with radix 10. -/
  toString : N → String
  /-- The operation ToBoolean on a number: false for zero and NaN. -/
  truthy : N → Bool
  /-- The comparison `x > 0`. -/
  gtZero : N → Bool

/-- Values a parsed JSON body can hold, with `undefined` for the result of
reading a missing property. `N` is the type of number values. -/
inductive JSVal (N : Type) where
  | undefined
  | null
  | bool (b : Bool)
  | num (x : N)
  | str (s : String)
  | arr (items : List (JSVal N))
  | obj (fields : List (String × JSVal N))

/-- Errors that reach a `catch` block of the script. -/
inductive JSError where
  /-- The promise returned by `fetch` rejected. -/
  | fetchFailed
  /-- The promise returned by `response.json()` rejected. -/
  | jsonSyntax
  /-- A property was read from `null` or `undefined`, something that is no
  function was called, or an object could not be converted to a primitive. -/
  | typeError
  deriving DecidableEq, Repr

/-- What the environment answers to one `fetch(...)` followed, where the script
does so, by `response.json()`: the fetch promise rejects, or it resolves with
an HTTP status and a body that parses (`some`) or does not (`none`). -/
inductive FetchOutcome (N : Type) where
  | rejected
  | resolved (status : Nat) (body : Option (JSVal N))

/-- The getter `response.ok`: the status is in the range 200 to 299. -/
def FetchOutcome.statusOk (status : Nat) : Bool :=
  decide (200 ≤ status) && decide (status ≤ 299)

/-- The property names the script reads from a parsed body or from one of its
sources. The read of `length` is part of `JSVal.lengthGtZero`. -/
inductive Field where
  | answer
  | sources
  | source
  | chunks_added
  | total_chunks
  deriving DecidableEq, Repr

/-- The name of a property as written in the script. -/
def Field.key : Field → String
  | .answer => "answer"
  | .sources => "sources"
  | .source => "source"
  | .chunks_added => "chunks_added"
  | .total_chunks => "total_chunks"

namespace JSVal

variable {N : Type}

/-- Value stored under a key of a parsed object, `undefined` when the object
has no such own property. A parsed object holds each key once. -/
def lookup (name : String) : List (String × JSVal N) → JSVal N
  | [] => undefined
  | (k, v) :: rest => if k = name then v else lookup name rest

/-- Whether a parsed object has an own property of the given name. -/
def hasOwn (name : String) : List (String × JSVal N) → Bool
  | [] => false
  | (k, _) :: rest => decide (k = name) || hasOwn name rest

/-- The strings of an array joined with a separator. -/
def joinWith (sep : String) : List String → String
  | [] => ""
  | [s] => s
  | s :: rest => s ++ sep ++ joinWith sep rest

/-- The abstract operation ToString, as template literals and string
concatenation apply it. An array is joined with commas, as the method
`Array.prototype.join` does. An object gives "[object Object]" through the
inherited `toString`, unless an own property `toString` hides it: a parsed
value is no function, and with the inherited `valueOf` returning the object
itself no primitive is reached, which is a `TypeError`. -/
def toStr (ops : Numbers N) : JSVal N → Except JSError String
  | undefined => .ok "undefined"
  | null => .ok "null"
  | bool b => .ok (if b then "true" else "false")
  | num x => .ok (ops.toString x)
  | str s => .ok s
  | arr items =>
    match elements items with
    | .error e => .error e
    | .ok parts => .ok (joinWith "," parts)
  | obj fields => if hasOwn "toString" fields then .error .typeError else .ok "[object Object]"
where
  /-- The elements of an array as `join` renders them, first to last: the
  empty string for `null` and `undefined`, ToString of any other element. -/
  elements : List (JSVal N) → Except JSError (List String)
  | [] => .ok []
  | undefined :: rest =>
    match elements rest with
    | .error e => .error e
    | .ok parts => .ok ("" :: parts)
  | null :: rest =>
    match elements rest with
    | .error e => .error e
    | .ok parts => .ok ("" :: parts)
  | v :: rest =>
    match toStr ops v with
    | .error e => .error e
    | .ok s =>
      match elements rest with
      | .error e => .error e
      | .ok parts => .ok (s :: parts)

/-- Property read `v.name` for a name of `Field`: reading from `null` or
`undefined` throws, a parsed object answers with its own property, and no
other value (number, boolean, string, array) has a property of such a name. -/
def getProp (v : JSVal N) (name : Field) : Except JSError (JSVal N) :=
  match v with
  | undefined => .error .typeError
  | null => .error .typeError
  | obj fields => .ok (lookup name.key fields)
  | _ => .ok undefined

/-- The abstract operation ToBoolean. -/
def truthy (ops : Numbers N) : JSVal N → Bool
  | undefined => false
  | null => false
  | bool b => b
  | num x => ops.truthy x
  | str s => decide (s ≠ "")
  | arr _ => true
  | obj _ => true

/-- The comparison `v > 0`. Arrays and objects are first converted to a
primitive, which may throw; a string is then converted to a number by the
platform, `strPos s` telling whether that number is above zero. The string
"[object Object]" converts to NaN. -/
def gtZero (ops : Numbers N) (strPos : String → Bool) : JSVal N → Except JSError Bool
  | undefined => .ok false
  | null => .ok false
  | bool b => .ok b
  | num x => .ok (ops.gtZero x)
  | str s => .ok (strPos s)
  | arr items =>
    match toStr ops (arr items) with
    | .error e => .error e
    | .ok s => .ok (strPos s)
  | obj fields =>
    match toStr ops (obj fields) with
    | .error e => .error e
    | .ok _ => .ok false

/-- The test `v.length > 0`: reading `length` from `null` or `undefined`
throws, the length of an array is its number of elements and that of a string
its number of code units, a parsed object answers with its own property
`length`, and numbers and booleans have none. -/
def lengthGtZero (ops : Numbers N) (strPos : String → Bool) :
    JSVal N → Except JSError Bool
  | undefined => .error .typeError
  | null => .error .typeError
  | arr items => .ok (!items.isEmpty)
  | str s => .ok (decide (s ≠ ""))
  | obj fields => gtZero ops strPos (lookup "length" fields)
  | _ => .ok false

/-- Conversion of a value assigned to the nullable string attribute
`textContent`: `null` and `undefined` give the empty text. -/
def toTextContent (ops : Numbers N) : JSVal N → Except JSError String
  | undefined => .ok ""
  | null => .ok ""
  | v => toStr ops v

end JSVal

/-- The value of the variable `totalChunksAdded`: the number it starts as, or
the string that `+=` turns it into. -/
inductive Total (N : Type) where
  | num (x : N)
  | str (s : String)

/-- The text of a total in a template literal. -/
def Total.text {N : Type} (ops : Numbers N) : Total N → String
  | .num x => ops.toString x
  | .str s => s

/-- The statement `totalChunksAdded += v`: numeric addition when the operand is
`undefined`, `null`, a boolean or a number and the total still a number, string
concatenation otherwise; converting an operand object to a primitive may throw. -/
def Total.plus {N : Type} (ops : Numbers N) (total : Total N) (v : JSVal N) :
    Except JSError (Total N) :=
  match total, v with
  | .num x, .undefined => .ok (.num (ops.add x ops.nan))
  | .num x, .null => .ok (.num (ops.add x ops.zero))
  | .num x, .bool b => .ok (.num (ops.add x (if b then ops.one else ops.zero)))
  | .num x, .num y => .ok (.num (ops.add x y))
  | total, v =>
    match v.toStr ops with
    | .error e => .error e
    | .ok s => .ok (.str (total.text ops ++ s))

/-! ## Page state -/

/-- The constant `API_URL`. -/
def API_URL : String := "http://localhost:8000"

/-- A selected file; the script only passes it on. -/
structure File where
  name : String
  deriving DecidableEq, Repr

/-- Body of a request. -/
inductive Payload where
  | none
  /-- A `FormData` with the single field `file`. -/
  | formFile (file : File)
  /-- The string `JSON.stringify({question, n_results})`, kept structured. -/
  | json (question : String) (nResults : Nat)
  deriving DecidableEq, Repr

/-- One call of `fetch`. -/
structure Request where
  method : String
  url : String
  headers : List (String × String)
  body : Payload
  deriving DecidableEq, Repr

/-- Network activity of the page: a request is `sent` when `fetch` is called and
`settled` when the handler resumes after the awaits on it. -/
inductive NetEvent where
  | sent (r : Request)
  | settled (r : Request)
  deriving DecidableEq, Repr

/-- A call `console.error(label, error)`. -/
structure LogEntry where
  label : String
  error : JSError
  deriving DecidableEq, Repr

/-- A message element built by `addMessage`: the outer `div` and its bubble. -/
structure MessageDiv where
  id : String
  className : String
  bubbleClassName : String
  bubbleMaxWidth : String
  bubbleInnerHTML : String
  deriving DecidableEq, Repr

/-- A child of `chatMessages`: markup assigned through `innerHTML`, or a
message element appended by `addMessage`. -/
inductive ChatNode where
  | html (markup : String)
  | message (m : MessageDiv)
  deriving DecidableEq, Repr

/-- The element `uploadStatus`. -/
structure Banner where
  textContent : String
  className : String
  display : String
  deriving DecidableEq, Repr

/-- The element `uploadBtn`. -/
structure Button where
  disabled : Bool
  textContent : String
  deriving DecidableEq, Repr

/-- The element `fileInput`. -/
structure FileInput where
  files : List File
  value : String
  deriving DecidableEq, Repr

/-- A callback registered with `setTimeout` and not yet run. The script
registers one kind only: hide the status banner. -/
structure Timeout where
  delayMs : Nat
  deriving DecidableEq, Repr

/-- The page: the elements bound at the top of the script, and the record of
what the script did to its environment. -/
structure Page where
  fileInput : FileInput
  uploadBtn : Button
  uploadStatus : Banner
  totalChunks : String
  chatMessages : List ChatNode
  questionInput : String
  timeouts : List Timeout
  console : List LogEntry
  net : List NetEvent
  deriving DecidableEq, Repr

namespace Page

/-- Call of `fetch`. -/
def send (r : Request) (p : Page) : Page :=
  { p with net := p.net ++ [.sent r] }

/-- The handler resumes after the awaits on a request. -/
def settle (r : Request) (p : Page) : Page :=
  { p with net := p.net ++ [.settled r] }

/-- Call of `console.error`. -/
def logError (label : String) (e : JSError) (p : Page) : Page :=
  { p with console := p.console ++ [⟨label, e⟩] }

end Page

/-! ## Helper functions of the script -/

/-- Markup put in front of the text of a loading bubble. -/
def spinnerHTML : String :=
  "<div class=\"spinner-border spinner-border-sm\" role=\"status\"></div> "

/-- The function `addMessage(content, role, isLoading)`, with the reading of
`Date.now()` as `now`. Returns the page and the id given to the new element.
The final scroll to the bottom depends on layout and is left out. -/
def addMessage (now : Nat) (content role : String) (isLoading : Bool) (p : Page) :
    Page × String :=
  let id := "msg_" ++ toString now
  let messageDiv : MessageDiv :=
    { id := id
      className := "mb-3 " ++ (if role = "user" then "text-end" else "")
      bubbleClassName :=
        "d-inline-block p-3 rounded " ++
          (if role = "user" then "bg-primary text-white" else "bg-light")
      bubbleMaxWidth := "80%"
      bubbleInnerHTML := if isLoading then spinnerHTML ++ content else content }
  ({ p with chatMessages := p.chatMessages ++ [.message messageDiv] }, id)

/-- The function `showStatus(message, type)`: fills and shows the banner and
registers the timeout that hides it five seconds later. -/
def showStatus (message type : String) (p : Page) : Page :=
  { p with
    uploadStatus :=
      { textContent := message, className := "alert alert-" ++ type, display := "block" }
    timeouts := p.timeouts ++ [⟨5000⟩] }

/-- Run of a registered timeout: the banner is hidden. -/
def runTimeout (p : Page) : Page :=
  { p with
    uploadStatus := { p.uploadStatus with display := "none" }
    timeouts := p.timeouts.tail }

/-- Whether a child of `chatMessages` carries the given id. -/
def ChatNode.hasId (id : String) : ChatNode → Bool
  | .html _ => false
  | .message m => decide (m.id = id)

/-- The call `document.getElementById(id)` for a message id: position of the
first element in document order carrying the id, if any. The other elements of
the page carry fixed ids that do not start with `msg_`. -/
def getElementById (id : String) (p : Page) : Option Nat :=
  p.chatMessages.findIdx? (ChatNode.hasId id)

/-- The statement `document.getElementById(id).remove()`: a `TypeError` when no
element carries the id, else that element leaves the message list. -/
def removeElementById (id : String) (p : Page) : Except JSError Page :=
  match getElementById id p with
  | none => .error .typeError
  | some i => .ok { p with chatMessages := p.chatMessages.eraseIdx i }


/-! ## Load stats -/

/-- The request of `loadStats`. -/
def statsRequest : Request :=
  { method := "GET", url := API_URL ++ "/stats", headers := [], body := .none }

/-- The function `loadStats()`, run to its end with the outcome of its request. -/
def loadStats {N : Type} (ops : Numbers N) (out : FetchOutcome N) (p : Page) : Page :=
  let p := p.send statsRequest
  match out with
  | .rejected => (p.settle statsRequest).logError "Stats error:" .fetchFailed
  | .resolved _ none => (p.settle statsRequest).logError "Stats error:" .jsonSyntax
  | .resolved _ (some data) =>
    let p := p.settle statsRequest
    match data.getProp .total_chunks with
    | .error e => p.logError "Stats error:" e
    | .ok v =>
      match v.toTextContent ops with
      | .error e => p.logError "Stats error:" e
      | .ok text => { p with totalChunks := text }

/-! ## Upload -/

/-- The request the upload handler sends for one file. -/
def uploadRequest (file : File) : Request :=
  { method := "POST", url := API_URL ++ "/upload", headers := [], body := .formFile file }

/-- Local variables of the upload handler across its loop, with the page. -/
structure UploadProgress (N : Type) where
  successCount : Nat
  totalChunksAdded : Total N
  page : Page

/-- One iteration of the loop `for (let file of files)`. -/
def uploadFile {N : Type} (ops : Numbers N) (file : File) (out : FetchOutcome N)
    (s : UploadProgress N) : UploadProgress N :=
  let req := uploadRequest file
  let page := s.page.send req
  match out with
  | .rejected => { s with page := (page.settle req).logError "Upload error:" .fetchFailed }
  | .resolved _ none =>
    { s with page := (page.settle req).logError "Upload error:" .jsonSyntax }
  | .resolved status (some data) =>
    let page := page.settle req
    if FetchOutcome.statusOk status then
      match data.getProp .chunks_added with
      | .error e =>
        { successCount := s.successCount + 1
          totalChunksAdded := s.totalChunksAdded
          page := page.logError "Upload error:" e }
      | .ok v =>
        match s.totalChunksAdded.plus ops v with
        | .error e =>
          { successCount := s.successCount + 1
            totalChunksAdded := s.totalChunksAdded
            page := page.logError "Upload error:" e }
        | .ok total =>
          { successCount := s.successCount + 1
            totalChunksAdded := total
            page := page }
    else { s with page := page }

/-- The loop over the selected files; `respond i` is the outcome of the request
for the file at position `i`. -/
def uploadLoop {N : Type} (ops : Numbers N) (respond : Nat → FetchOutcome N) :
    Nat → List File → UploadProgress N → UploadProgress N
  | _, [], s => s
  | i, file :: rest, s =>
    uploadLoop ops respond (i + 1) rest (uploadFile ops file (respond i) s)

/-- The aggregate message shown after the loop; `totalText` is the text of
`totalChunksAdded`. -/
def uploadSummary (successCount total : Nat) (totalText : String) : String :=
  "✅ Uploaded " ++ toString successCount ++ "/" ++ toString total ++ " files (" ++
    totalText ++ " chunks)"

/-- The click handler of `uploadBtn`; `stats` is the outcome of the request of
the closing `loadStats()`. Assigning the empty string to the value of a file
input empties its selection. -/
def uploadClick {N : Type} (ops : Numbers N) (respond : Nat → FetchOutcome N)
    (stats : FetchOutcome N) (p : Page) : Page :=
  let files := p.fileInput.files
  if files.length = 0 then
    showStatus "Please select files to upload" "warning" p
  else
    let p := { p with uploadBtn := { p.uploadBtn with disabled := true } }
    let p := { p with uploadBtn := { p.uploadBtn with textContent := "Processing..." } }
    let s := uploadLoop ops respond 0 files
      { successCount := 0, totalChunksAdded := .num ops.zero, page := p }
    let p := showStatus
      (uploadSummary s.successCount files.length (s.totalChunksAdded.text ops))
      "success" s.page
    let p := { p with uploadBtn := { p.uploadBtn with disabled := false } }
    let p := { p with uploadBtn := { p.uploadBtn with textContent := "Upload & Process" } }
    let p := { p with fileInput := { files := [], value := "" } }
    loadStats ops stats p

/-! ## Ask a question -/

/-- Code points `String.prototype.trim` strips: white space and line
terminators of the language. -/
def isTrimChar (c : Char) : Bool :=
  let n := c.toNat
  n == 0x09 || n == 0x0A || n == 0x0B || n == 0x0C || n == 0x0D || n == 0x20 ||
    n == 0xA0 || n == 0x1680 || (decide (0x2000 ≤ n) && decide (n ≤ 0x200A)) ||
    n == 0x2028 || n == 0x2029 || n == 0x202F || n == 0x205F || n == 0x3000 ||
    n == 0xFEFF

/-- The method `String.prototype.trim`. -/
def jsTrim (s : String) : String :=
  String.mk ((s.data.dropWhile isTrimChar).reverse.dropWhile isTrimChar).reverse

/-- The request of `askQuestion`. -/
def queryRequest (question : String) : Request :=
  { method := "POST"
    url := API_URL ++ "/query"
    headers := [("Content-Type", "application/json")]
    body := .json question 3 }

/-- The fixed text shown when the `catch` block of `askQuestion` runs. -/
def queryErrorMessage : String :=
  "❌ Error: Could not get answer. Make sure backend is running."

/-- Markup between the answer and the list of sources. -/
def sourcesHeader : String := "<br><br><strong>📚 Sources:</strong><br>"

/-- The markup one source adds, `i` being its position counted from 0. -/
def sourceItem (i : Nat) (source : String) : String :=
  "<small><em>" ++ toString (i + 1) ++ ". " ++ source ++ "</em></small><br>"

/-- The callback loop `data.sources.forEach((source, i) => ...)` from position
`i` on, appending to `answerHTML`. -/
def appendSources {N : Type} (ops : Numbers N) :
    Nat → List (JSVal N) → String → Except JSError String
  | _, [], answerHTML => .ok answerHTML
  | i, source :: rest, answerHTML =>
    match source.getProp .source with
    | .error e => .error e
    | .ok v =>
      match v.toStr ops with
      | .error e => .error e
      | .ok text => appendSources ops (i + 1) rest (answerHTML ++ sourceItem i text)

/-- The markup `askQuestion` builds from the parsed body (the statements between
the removal of the loading bubble and the final `addMessage`). Only an array
has the method `forEach`. -/
def answerHTML {N : Type} (ops : Numbers N) (strPos : String → Bool) (data : JSVal N) :
    Except JSError String :=
  match data.getProp .answer with
  | .error e => .error e
  | .ok answer =>
    match answer.toStr ops with
    | .error e => .error e
    | .ok answerText =>
      let html := "<strong>Answer:</strong><br>" ++ answerText
      match data.getProp .sources with
      | .error e => .error e
      | .ok sources =>
        if sources.truthy ops then
          match sources.lengthGtZero ops strPos with
          | .error e => .error e
          | .ok true =>
            match sources with
            | .arr items => appendSources ops 0 items (html ++ sourcesHeader)
            | _ => .error .typeError
          | .ok false => .ok html
        else .ok html

/-- What `askQuestion` holds across its `await`. -/
structure PendingQuery where
  question : String
  loadingId : String
  deriving DecidableEq, Repr

/-- The part of `askQuestion` before its first suspension: nothing when the
trimmed question is empty, else the two bubbles and the call of `fetch`.
`t1` and `t2` are the readings of `Date.now()` in the two calls of `addMessage`. -/
def askQuestionBegin (t1 t2 : Nat) (p : Page) : Option (Page × PendingQuery) :=
  let question := jsTrim p.questionInput
  if question = "" then none
  else
    let p := (addMessage t1 question "user" false p).1
    let p := { p with questionInput := "" }
    let (p, loadingId) := addMessage t2 "Thinking..." "assistant" true p
    some (p.send (queryRequest question), { question := question, loadingId := loadingId })

/-- The `try` block of `askQuestion` from the point where the awaits on the
request are over; the second component is the error thrown, if any. -/
def askQuestionTry {N : Type} (ops : Numbers N) (strPos : String → Bool) (t3 : Nat)
    (out : FetchOutcome N) (q : PendingQuery) (p : Page) : Page × Option JSError :=
  let p := p.settle (queryRequest q.question)
  match out with
  | .rejected => (p, some .fetchFailed)
  | .resolved _ none => (p, some .jsonSyntax)
  | .resolved _ (some data) =>
    match removeElementById q.loadingId p with
    | .error e => (p, some e)
    | .ok p =>
      match answerHTML ops strPos data with
      | .error e => (p, some e)
      | .ok html => ((addMessage t3 html "assistant" false p).1, none)

/-- The `catch` block of `askQuestion`; the second component is the error that
leaves the block, if any. -/
def askQuestionCatch (t3 : Nat) (q : PendingQuery) (error : JSError) (p : Page) :
    Page × Option JSError :=
  match removeElementById q.loadingId p with
  | .error e => (p, some e)
  | .ok p =>
    let p := (addMessage t3 queryErrorMessage "assistant" false p).1
    (p.logError "Query error:" error, none)

/-- The part of `askQuestion` after its suspension, given the outcome of the
request; `t3` is the reading of `Date.now()` in the last call of `addMessage`. -/
def askQuestionResume {N : Type} (ops : Numbers N) (strPos : String → Bool) (t3 : Nat)
    (out : FetchOutcome N) (q : PendingQuery) (p : Page) : Page × Option JSError :=
  match askQuestionTry ops strPos t3 out q p with
  | (p, none) => (p, none)
  | (p, some e) => askQuestionCatch t3 q e p

/-- The function `askQuestion()` run to its end: the final page and the error
with which its promise rejects, if any. -/
def askQuestion {N : Type} (ops : Numbers N) (strPos : String → Bool) (t1 t2 t3 : Nat)
    (out : FetchOutcome N) (p : Page) : Page × Option JSError :=
  match askQuestionBegin t1 t2 p with
  | none => (p, none)
  | some (p, q) => askQuestionResume ops strPos t3 out q p

/-! ## Clear the database -/

/-- The request of the clear handler. -/
def clearRequest : Request :=
  { method := "DELETE", url := API_URL ++ "/clear", headers := [], body := .none }

/-- The markup the chat panel is reset to. -/
def placeholderHTML : String :=
  "<div class=\"alert alert-info\">Upload documents and ask questions to get started!</div>"

/-- The click handler of `clearBtn`; `confirmed` is the answer of `confirm`,
`del` the outcome of the request to `/clear` (its body is never read) and
`stats` the outcome of the request of the closing `loadStats()`. -/
def clearClick {N : Type} (ops : Numbers N) (confirmed : Bool) (del stats : FetchOutcome N)
    (p : Page) : Page :=
  if !confirmed then p
  else
    let p := p.send clearRequest
    match del with
    | .rejected => showStatus "Error clearing database" "danger" (p.settle clearRequest)
    | .resolved _ _ =>
      let p := showStatus "Database cleared!" "success" (p.settle clearRequest)
      let p := { p with chatMessages := [.html placeholderHTML] }
      loadStats ops stats p

/-! ## Sample pages -/

/-- The page as loaded: placeholder in the chat panel, nothing selected. -/
def freshPage : Page :=
  { fileInput := { files := [], value := "" }
    uploadBtn := { disabled := false, textContent := "Upload & Process" }
    uploadStatus := { textContent := "", className := "", display := "none" }
    totalChunks := "0"
    chatMessages := [.html placeholderHTML]
    questionInput := ""
    timeouts := []
    console := []
    net := [] }

/-! ## A number system to run the handlers on

The doubles whose value is an integer, with NaN and the two infinities, are
closed under addition. `IntDouble` holds them; `int v` stands for the double
nearest to the integer `v`, which is `v` itself when a double has that value.
Negative zero is left out: no sum of other values gives it. -/

/-- NaN, an infinity, or the double nearest to an integer. -/
inductive IntDouble where
  | nan
  | inf (negative : Bool)
  | int (value : Int)
  deriving DecidableEq, Repr

namespace IntDouble

/-- Number of binary digits of `a`, counted with `fuel` steps at most. -/
def bits : Nat → Nat → Nat
  | 0, _ => 0
  | fuel + 1, a => if a = 0 then 0 else bits fuel (a / 2) + 1

/-- Number of binary digits of `a`. -/
def bitLength (a : Nat) : Nat := bits a a

/-- The natural number with at most 53 significant bits nearest to `a`, the
even one of two equally near. -/
def roundMagnitude (a : Nat) : Nat :=
  if a < 2 ^ 53 then a
  else
    let shift := bitLength a - 53
    let q := a / 2 ^ shift
    let rest := a % 2 ^ shift
    let half := 2 ^ (shift - 1)
    let q := if half < rest || (rest == half && q % 2 == 1) then q + 1 else q
    q * 2 ^ shift

/-- The double nearest to an integer: an infinity when the rounded magnitude
reaches 2 to the 1024, which is when it takes more than 1024 binary digits. -/
def ofInt (v : Int) : IntDouble :=
  let m := roundMagnitude v.natAbs
  if 1024 < bitLength m then inf (decide (v < 0))
  else if v < 0 then int (-(m : Int)) else int m

/-- The same double, with an integer replaced by the value of its double. -/
def normal : IntDouble → IntDouble
  | int v => ofInt v
  | x => x

/-- Sum of two doubles: the double nearest to the exact sum. -/
def add (x y : IntDouble) : IntDouble :=
  match normal x, normal y with
  | nan, _ => nan
  | _, nan => nan
  | inf s, inf t => if s = t then inf s else nan
  | inf s, int _ => inf s
  | int _, inf t => inf t
  | int a, int b => ofInt (a + b)

/-- Search for the shortest decimal significand of the positive double `a` of
`digits` decimal digits, trying lengths `k`, `k + 1`, ...: the pair of the
significand `s` and its length, where `s` times the fitting power of ten is
nearer to `a` than to any other double; of two such `s` the one nearer to `a`,
the even one when equally near. Seventeen digits identify a double, so the
search ends before the fuel does. -/
def shortest (a digits : Nat) : Nat → Nat → Nat × Nat
  | 0, k => (a / 10 ^ (digits - k), k)
  | fuel + 1, k =>
    if digits ≤ k then (a, digits)
    else
      let scale := 10 ^ (digits - k)
      let lo := a / scale
      let hi := lo + 1
      let loFits := roundMagnitude (lo * scale) == a
      let hiFits := decide (hi < 10 ^ k) && roundMagnitude (hi * scale) == a
      let below := a - lo * scale
      let above := hi * scale - a
      if loFits && hiFits then
        if below < above then (lo, k)
        else if above < below then (hi, k)
        else if lo % 2 == 0 then (lo, k) else (hi, k)
      else if loFits then (lo, k)
      else if hiFits then (hi, k)
      else shortest a digits fuel (k + 1)

/-- The string of `n` zeros. -/
def zeros (n : Nat) : String := String.mk (List.replicate n '0')

/-- Number::toString for the positive double of integer value `a`: plain
digits below ten to the 21, exponent form from there on. -/
def magnitudeToString (a : Nat) : String :=
  let digits := (Nat.repr a).length
  let (s, k, n) :=
    if roundMagnitude (10 ^ digits) == a then (1, 1, digits + 1)
    else
      let r := shortest a digits 17 1
      (r.1, r.2, digits)
  if n ≤ 21 then Nat.repr s ++ zeros (n - k)
  else if k == 1 then Nat.repr s ++ "e+" ++ Nat.repr (n - 1)
  else
    String.mk ((Nat.repr s).data.take 1) ++ "." ++ String.mk ((Nat.repr s).data.drop 1) ++
      "e+" ++ Nat.repr (n - 1)

/-- Number::toString with radix 10. -/
def toString (x : IntDouble) : String :=
  match normal x with
  | nan => "NaN"
  | inf false => "Infinity"
  | inf true => "-Infinity"
  | int v =>
    if v = 0 then "0"
    else if v < 0 then "-" ++ magnitudeToString v.natAbs
    else magnitudeToString v.natAbs

/-- ToBoolean on a number. -/
def truthy : IntDouble → Bool
  | nan => false
  | inf _ => true
  | int v => decide (v ≠ 0)

/-- The comparison `x > 0`. -/
def gtZero : IntDouble → Bool
  | nan => false
  | inf negative => !negative
  | int v => decide (0 < v)

end IntDouble

/-- The operations of the language on the doubles of `IntDouble`. -/
def intDoubles : Numbers IntDouble :=
  { zero := .int 0
    one := .int 1
    nan := .nan
    add := IntDouble.add
    toString := IntDouble.toString
    truthy := IntDouble.truthy
    gtZero := IntDouble.gtZero }

/-! ## Vocabulary of the statements -/

/-- Whether a response had a success status, whatever its body. -/
def FetchOutcome.hasSuccessStatus {N : Type} : FetchOutcome N → Bool
  | .resolved status _ => FetchOutcome.statusOk status
  | .rejected => false

/-- Whether a response had a success status and a body that parsed. -/
def FetchOutcome.okAndParsed {N : Type} : FetchOutcome N → Bool
  | .resolved status (some _) => FetchOutcome.statusOk status
  | _ => false

/-- The number `chunks_added` of a response with a success status and a parsed
body that carries one. -/
def FetchOutcome.chunksAdded {N : Type} : FetchOutcome N → Option N
  | .resolved status (some data) =>
    if FetchOutcome.statusOk status then
      match data.getProp .chunks_added with
      | .ok (.num c) => some c
      | _ => none
    else none
  | _ => none

/-- A response with a success status and a parsed body has the shape
`{ chunks_added: number }` of the data model. -/
def FetchOutcome.chunksTyped {N : Type} : FetchOutcome N → Prop
  | .resolved status (some data) =>
    FetchOutcome.statusOk status = true → ∃ c : N, data.getProp .chunks_added = .ok (.num c)
  | _ => True

/-- The two network events of one awaited upload request. -/
def uploadEvents (file : File) : List NetEvent :=
  [.sent (uploadRequest file), .settled (uploadRequest file)]

/-- Concatenation of a list of strings, first to last. -/
def concatAll : List String → String
  | [] => ""
  | s :: rest => s ++ concatAll rest

/-- A message element as `addMessage` builds it for the role `user`. -/
def userBubble (now : Nat) (content : String) : ChatNode :=
  .message
    { id := "msg_" ++ toString now
      className := "mb-3 text-end"
      bubbleClassName := "d-inline-block p-3 rounded bg-primary text-white"
      bubbleMaxWidth := "80%"
      bubbleInnerHTML := content }

/-- A message element as `addMessage` builds it for the role `assistant`, the
bubble holding the given markup. -/
def assistantBubble (now : Nat) (markup : String) : ChatNode :=
  .message
    { id := "msg_" ++ toString now
      className := "mb-3 "
      bubbleClassName := "d-inline-block p-3 rounded bg-light"
      bubbleMaxWidth := "80%"
      bubbleInnerHTML := markup }

/-- A page with an earlier exchange in the chat panel. -/
def chattedPage : Page :=
  { freshPage with
    chatMessages :=
      [.html placeholderHTML, userBubble 900 "hello",
       assistantBubble 901 "<strong>Answer:</strong><br>hi"] }

/-! ## Frame lemmas -/

section
variable {N : Type} (ops : Numbers N)

theorem loadStats_net (out : FetchOutcome N) (p : Page) :
    (loadStats ops out p).net = p.net ++ [.sent statsRequest, .settled statsRequest] := by
  unfold loadStats
  rcases out with _ | ⟨status, _ | data⟩
  · simp [Page.send, Page.settle, Page.logError]
  · simp [Page.send, Page.settle, Page.logError]
  · cases h : data.getProp .total_chunks with
    | error e => simp [h, Page.send, Page.settle, Page.logError]
    | ok v =>
      cases h2 : v.toTextContent ops <;>
        simp [h, h2, Page.send, Page.settle, Page.logError]

theorem loadStats_frame (out : FetchOutcome N) (p : Page) :
    (loadStats ops out p).uploadBtn = p.uploadBtn ∧
    (loadStats ops out p).uploadStatus = p.uploadStatus ∧
    (loadStats ops out p).fileInput = p.fileInput ∧
    (loadStats ops out p).chatMessages = p.chatMessages ∧
    (loadStats ops out p).questionInput = p.questionInput ∧
    (loadStats ops out p).timeouts = p.timeouts := by
  unfold loadStats
  rcases out with _ | ⟨status, _ | data⟩
  · simp [Page.send, Page.settle, Page.logError]
  · simp [Page.send, Page.settle, Page.logError]
  · cases h : data.getProp .total_chunks with
    | error e => simp [h, Page.send, Page.settle, Page.logError]
    | ok v =>
      cases h2 : v.toTextContent ops <;>
        simp [h, h2, Page.send, Page.settle, Page.logError]

end

/-- C9. With no file selected the upload handler only shows the warning: no
request is recorded, the banner reads "Please select files to upload" with the
warning class and is displayed, and the upload button is as it was. -/
theorem uploadClick_no_files {N : Type} (ops : Numbers N) (respond : Nat → FetchOutcome N)
    (stats : FetchOutcome N) (p : Page) (h : p.fileInput.files = []) :
    (uploadClick ops respond stats p).net = p.net ∧
    (uploadClick ops respond stats p).uploadStatus =
      { textContent := "Please select files to upload"
        className := "alert alert-warning"
        display := "block" } ∧
    (uploadClick ops respond stats p).uploadBtn = p.uploadBtn ∧
    (uploadClick ops respond stats p).totalChunks = p.totalChunks ∧
    (uploadClick ops respond stats p).console = p.console := by
  simp [uploadClick, h, showStatus]

theorem uploadClick_no_files_witness :
    freshPage.fileInput.files = [] ∧
    (uploadClick intDoubles (fun _ => .rejected) .rejected freshPage).net = freshPage.net ∧
    (uploadClick intDoubles (fun _ => .rejected) .rejected freshPage).uploadStatus =
      { textContent := "Please select files to upload"
        className := "alert alert-warning"
        display := "block" } ∧
    (uploadClick intDoubles (fun _ => .rejected) .rejected freshPage).uploadBtn =
      freshPage.uploadBtn ∧
    (uploadClick intDoubles (fun _ => .rejected) .rejected freshPage).totalChunks =
      freshPage.totalChunks ∧
    (uploadClick intDoubles (fun _ => .rejected) .rejected freshPage).console =
      freshPage.console :=
  ⟨rfl, uploadClick_no_files intDoubles _ _ freshPage rfl⟩

/-- C6. Declining the confirmation leaves the whole page as it was, so no
request is recorded and chat, banner and counter are unchanged. Confirming
sends one DELETE to /clear; when that request resolves, whatever its status and
body, the chat panel holds exactly the placeholder markup, the banner shows
"Database cleared!" with the success class, and the only further request is one
GET to /stats. -/
theorem clearClick_spec {N : Type} (ops : Numbers N) (del stats : FetchOutcome N)
    (status : Nat) (body : Option (JSVal N)) (p : Page) :
    clearClick ops false del stats p = p ∧
    (clearClick ops true (.resolved status body) stats p).net =
      p.net ++ [.sent clearRequest, .settled clearRequest,
                .sent statsRequest, .settled statsRequest] ∧
    (clearClick ops true (.resolved status body) stats p).chatMessages =
      [.html "<div class=\"alert alert-info\">Upload documents and ask questions to get started!</div>"] ∧
    (clearClick ops true (.resolved status body) stats p).uploadStatus =
      { textContent := "Database cleared!"
        className := "alert alert-success"
        display := "block" } ∧
    clearRequest = { method := "DELETE", url := "http://localhost:8000/clear",
                     headers := [], body := .none } ∧
    statsRequest = { method := "GET", url := "http://localhost:8000/stats",
                     headers := [], body := .none } := by
  refine ⟨by simp [clearClick], ?_, ?_, ?_, by decide, by decide⟩
  · simp [clearClick, loadStats_net, showStatus, Page.send, Page.settle]
  · simp [clearClick, (loadStats_frame ops _ _).2.2.2.1, placeholderHTML]
  · simp [clearClick, (loadStats_frame ops _ _).2.1, showStatus]

/-! ## The upload loop -/

section
variable {N : Type} (ops : Numbers N)

theorem uploadFile_page (file : File) (out : FetchOutcome N) (s : UploadProgress N) :
    (uploadFile ops file out s).page.net = s.page.net ++ uploadEvents file ∧
    (uploadFile ops file out s).page.uploadBtn = s.page.uploadBtn ∧
    (uploadFile ops file out s).page.uploadStatus = s.page.uploadStatus ∧
    (uploadFile ops file out s).page.fileInput = s.page.fileInput ∧
    (uploadFile ops file out s).page.chatMessages = s.page.chatMessages ∧
    (uploadFile ops file out s).page.timeouts = s.page.timeouts ∧
    (uploadFile ops file out s).page.totalChunks = s.page.totalChunks := by
  unfold uploadFile
  rcases out with _ | ⟨status, _ | data⟩
  · simp [Page.send, Page.settle, Page.logError, uploadEvents]
  · simp [Page.send, Page.settle, Page.logError, uploadEvents]
  · by_cases hok : FetchOutcome.statusOk status = true
    · cases h : data.getProp .chunks_added with
      | error e => simp [h, hok, Page.send, Page.settle, Page.logError, uploadEvents]
      | ok v =>
        cases h2 : s.totalChunksAdded.plus ops v <;>
          simp [h, h2, hok, Page.send, Page.settle, Page.logError, uploadEvents]
    · simp [hok, Page.send, Page.settle, Page.logError, uploadEvents]

theorem uploadFile_successCount (file : File) (out : FetchOutcome N) (s : UploadProgress N) :
    (uploadFile ops file out s).successCount =
      s.successCount + (if out.okAndParsed then 1 else 0) := by
  unfold uploadFile
  rcases out with _ | ⟨status, _ | data⟩
  · simp [FetchOutcome.okAndParsed]
  · simp [FetchOutcome.okAndParsed]
  · by_cases hok : FetchOutcome.statusOk status = true
    · cases h : data.getProp .chunks_added with
      | error e => simp [h, hok, FetchOutcome.okAndParsed]
      | ok v =>
        cases h2 : s.totalChunksAdded.plus ops v <;>
          simp [h, h2, hok, FetchOutcome.okAndParsed]
    · simp [hok, FetchOutcome.okAndParsed]

theorem uploadFile_total (file : File) (out : FetchOutcome N) (s : UploadProgress N) (a : N)
    (hs : s.totalChunksAdded = .num a) (ht : out.chunksTyped) :
    (uploadFile ops file out s).totalChunksAdded =
      .num (match out.chunksAdded with
        | some c => ops.add a c
        | none => a) := by
  unfold uploadFile
  rcases out with _ | ⟨status, _ | data⟩
  · simp [FetchOutcome.chunksAdded, hs]
  · simp [FetchOutcome.chunksAdded, hs]
  · by_cases hok : FetchOutcome.statusOk status = true
    · obtain ⟨c, hc⟩ := ht hok
      simp [hc, hok, FetchOutcome.chunksAdded, hs, Total.plus]
    · simp [hok, FetchOutcome.chunksAdded, hs]

theorem uploadLoop_page (respond : Nat → FetchOutcome N) (files : List File) :
    ∀ (i : Nat) (s : UploadProgress N),
      (uploadLoop ops respond i files s).page.net =
        s.page.net ++ files.flatMap uploadEvents ∧
      (uploadLoop ops respond i files s).page.uploadBtn = s.page.uploadBtn ∧
      (uploadLoop ops respond i files s).page.uploadStatus = s.page.uploadStatus ∧
      (uploadLoop ops respond i files s).page.fileInput = s.page.fileInput ∧
      (uploadLoop ops respond i files s).page.chatMessages = s.page.chatMessages ∧
      (uploadLoop ops respond i files s).page.timeouts = s.page.timeouts ∧
      (uploadLoop ops respond i files s).page.totalChunks = s.page.totalChunks := by
  induction files with
  | nil => intro i s; simp [uploadLoop]
  | cons file rest ih =>
    intro i s
    obtain ⟨h1, h2, h3, h4, h5, h6, h7⟩ := ih (i + 1) (uploadFile ops file (respond i) s)
    obtain ⟨g1, g2, g3, g4, g5, g6, g7⟩ := uploadFile_page ops file (respond i) s
    simp only [uploadLoop]
    refine ⟨?_, h2.trans g2, h3.trans g3, h4.trans g4, h5.trans g5, h6.trans g6, h7.trans g7⟩
    rw [h1, g1]
    simp [List.flatMap_cons]

theorem uploadLoop_successCount (respond : Nat → FetchOutcome N) (files : List File) :
    ∀ (i : Nat) (s : UploadProgress N),
      (uploadLoop ops respond i files s).successCount =
        s.successCount +
          ((List.range' i files.length).filter (fun j => (respond j).okAndParsed)).length := by
  induction files with
  | nil => intro i s; simp [uploadLoop]
  | cons file rest ih =>
    intro i s
    simp only [uploadLoop, List.length_cons, List.range'_succ]
    rw [ih, uploadFile_successCount, List.filter_cons]
    by_cases h : (respond i).okAndParsed = true
    · simp [h]; omega
    · simp [h]

theorem uploadLoop_total (respond : Nat → FetchOutcome N) (files : List File) :
    ∀ (i : Nat) (s : UploadProgress N) (a : N),
      s.totalChunksAdded = .num a →
      (∀ j, i ≤ j → j < i + files.length → (respond j).chunksTyped) →
      (uploadLoop ops respond i files s).totalChunksAdded =
        .num (((List.range' i files.length).filterMap
          (fun j => (respond j).chunksAdded)).foldl ops.add a) := by
  induction files with
  | nil => intro i s a hs _; simp [uploadLoop, hs]
  | cons file rest ih =>
    intro i s a hs ht
    simp only [uploadLoop, List.length_cons, List.range'_succ]
    have h1 := uploadFile_total ops file (respond i) s a hs
      (ht i (Nat.le_refl i) (by simp))
    rw [ih (i + 1) _ _ h1 (fun j hj1 hj2 => ht j (by omega) (by simp at hj2 ⊢; omega))]
    cases hc : (respond i).chunksAdded <;> simp [List.filterMap_cons, hc]

end

/-! ## The upload handler -/

theorem uploadClick_eq {N : Type} (ops : Numbers N) (respond : Nat → FetchOutcome N)
    (stats : FetchOutcome N) (p : Page) (h : p.fileInput.files ≠ []) :
    uploadClick ops respond stats p =
      loadStats ops stats
        { showStatus
            (uploadSummary
              (uploadLoop ops respond 0 p.fileInput.files
                { successCount := 0, totalChunksAdded := .num ops.zero
                  page := { p with uploadBtn := { disabled := true, textContent := "Processing..." } } }).successCount
              p.fileInput.files.length
              ((uploadLoop ops respond 0 p.fileInput.files
                { successCount := 0, totalChunksAdded := .num ops.zero
                  page := { p with uploadBtn := { disabled := true, textContent := "Processing..." } } }).totalChunksAdded.text ops))
            "success"
            (uploadLoop ops respond 0 p.fileInput.files
              { successCount := 0, totalChunksAdded := .num ops.zero
                page := { p with uploadBtn := { disabled := true, textContent := "Processing..." } } }).page with
          uploadBtn := { disabled := false, textContent := "Upload & Process" }
          fileInput := { files := [], value := "" } } := by
  have hne : ¬ (p.fileInput.files.length = 0) := by
    simpa [List.length_eq_zero] using h
  simp [uploadClick, hne, showStatus]

theorem filter_range_length_le (n : Nat) (f : Nat → Bool) :
    ((List.range n).filter f).length ≤ n := by
  have := List.length_filter_le f (List.range n)
  simpa using this

/-- C10. With at least one file selected the upload handler reaches its last
statement whatever the per-file outcomes are: the button is enabled and
labelled "Upload & Process", the aggregate message is displayed with the
success class, the file input is reset, and the last request is the GET to
/stats of the closing refresh. -/
theorem uploadClick_completes {N : Type} (ops : Numbers N) (respond : Nat → FetchOutcome N)
    (stats : FetchOutcome N) (p : Page) (h : p.fileInput.files ≠ []) :
    (uploadClick ops respond stats p).uploadBtn =
      { disabled := false, textContent := "Upload & Process" } ∧
    (uploadClick ops respond stats p).uploadStatus.display = "block" ∧
    (uploadClick ops respond stats p).uploadStatus.className = "alert alert-success" ∧
    (∃ (k : Nat) (total : Total N), k ≤ p.fileInput.files.length ∧
      (uploadClick ops respond stats p).uploadStatus.textContent =
        "✅ Uploaded " ++ toString k ++ "/" ++ toString p.fileInput.files.length ++
          " files (" ++ total.text ops ++ " chunks)") ∧
    (uploadClick ops respond stats p).fileInput = { files := [], value := "" } ∧
    (∃ before : List NetEvent,
      (uploadClick ops respond stats p).net =
        before ++ [.sent { method := "GET", url := "http://localhost:8000/stats",
                           headers := [], body := .none },
                   .settled { method := "GET", url := "http://localhost:8000/stats",
                              headers := [], body := .none }]) := by
  rw [uploadClick_eq ops respond stats p h]
  obtain ⟨f1, f2, f3, -, -, -⟩ := loadStats_frame ops stats
    { showStatus
        (uploadSummary
          (uploadLoop ops respond 0 p.fileInput.files
            { successCount := 0, totalChunksAdded := .num ops.zero
              page := { p with uploadBtn := { disabled := true, textContent := "Processing..." } } }).successCount
          p.fileInput.files.length
          ((uploadLoop ops respond 0 p.fileInput.files
            { successCount := 0, totalChunksAdded := .num ops.zero
              page := { p with uploadBtn := { disabled := true, textContent := "Processing..." } } }).totalChunksAdded.text ops))
        "success"
        (uploadLoop ops respond 0 p.fileInput.files
          { successCount := 0, totalChunksAdded := .num ops.zero
            page := { p with uploadBtn := { disabled := true, textContent := "Processing..." } } }).page with
      uploadBtn := { disabled := false, textContent := "Upload & Process" }
      fileInput := { files := [], value := "" } }
  refine ⟨f1, ?_, ?_, ?_, f3, ?_⟩
  · rw [f2]; rfl
  · rw [f2]; rfl
  · rw [f2]
    refine ⟨_, (uploadLoop ops respond 0 p.fileInput.files
      { successCount := 0, totalChunksAdded := .num ops.zero
        page := { p with uploadBtn := { disabled := true, textContent := "Processing..." } } }
      ).totalChunksAdded, ?_, rfl⟩
    rw [uploadLoop_successCount, ← List.range_eq_range']
    simpa using filter_range_length_le _ _
  · exact ⟨_, loadStats_net ops _ _⟩

theorem uploadClick_completes_witness :
    (uploadClick intDoubles (fun _ => .resolved 200 (some .null)) .rejected
        { freshPage with fileInput := { files := [⟨"a.pdf"⟩], value := "a.pdf" } }).uploadBtn =
      { disabled := false, textContent := "Upload & Process" } ∧
    (uploadClick intDoubles (fun _ => .resolved 200 (some .null)) .rejected
        { freshPage with fileInput := { files := [⟨"a.pdf"⟩], value := "a.pdf" } }).fileInput =
      { files := [], value := "" } :=
  have h := uploadClick_completes intDoubles (fun _ => .resolved 200 (some .null)) .rejected
    { freshPage with fileInput := { files := [⟨"a.pdf"⟩], value := "a.pdf" } } (by decide)
  ⟨h.1, h.2.2.2.2.1⟩

/-- C3, as amended. With N > 0 files selected the upload handler sends N POSTs
to /upload, one per file in list order, each sent after the awaits on the
previous one are over, and then one GET to /stats. The count in the final
message is the number of files whose response had a success status and a body
that parsed, which is at most N; when each such body has the shape
{ chunks_added: number }, the chunk total in the message is the sum of those
numbers, added to 0 one after the other in list order with the addition of the
language and printed as the language prints a number. -/
theorem uploadClick_report {N : Type} (ops : Numbers N) (respond : Nat → FetchOutcome N)
    (stats : FetchOutcome N) (p : Page) (h : p.fileInput.files ≠ []) :
    (uploadClick ops respond stats p).net =
      p.net ++
        p.fileInput.files.flatMap (fun file =>
          [NetEvent.sent { method := "POST", url := "http://localhost:8000/upload",
                           headers := [], body := .formFile file },
           NetEvent.settled { method := "POST", url := "http://localhost:8000/upload",
                              headers := [], body := .formFile file }]) ++
        [.sent statsRequest, .settled statsRequest] ∧
    ((List.range p.fileInput.files.length).filter
        (fun i => (respond i).okAndParsed)).length ≤ p.fileInput.files.length ∧
    (∃ total : Total N,
      (uploadClick ops respond stats p).uploadStatus.textContent =
        "✅ Uploaded " ++
          toString ((List.range p.fileInput.files.length).filter
            (fun i => (respond i).okAndParsed)).length ++
          "/" ++ toString p.fileInput.files.length ++
          " files (" ++ total.text ops ++ " chunks)") ∧
    ((∀ i, i < p.fileInput.files.length → (respond i).chunksTyped) →
      (uploadClick ops respond stats p).uploadStatus.textContent =
        "✅ Uploaded " ++
          toString ((List.range p.fileInput.files.length).filter
            (fun i => (respond i).okAndParsed)).length ++
          "/" ++ toString p.fileInput.files.length ++
          " files (" ++
          ops.toString (((List.range p.fileInput.files.length).filterMap
            (fun i => (respond i).chunksAdded)).foldl ops.add ops.zero) ++
          " chunks)") := by
  rw [uploadClick_eq ops respond stats p h]
  refine ⟨?_, filter_range_length_le _ _, ?_, ?_⟩
  · rw [loadStats_net]
    simp only [showStatus]
    rw [(uploadLoop_page ops respond p.fileInput.files 0 _).1]
    rfl
  · rw [(loadStats_frame ops _ _).2.1]
    refine ⟨(uploadLoop ops respond 0 p.fileInput.files
      { successCount := 0, totalChunksAdded := .num ops.zero
        page := { p with uploadBtn := { disabled := true, textContent := "Processing..." } } }
      ).totalChunksAdded, ?_⟩
    simp only [showStatus, uploadSummary]
    rw [uploadLoop_successCount, ← List.range_eq_range']
    simp
  · intro ht
    rw [(loadStats_frame ops _ _).2.1]
    simp only [showStatus, uploadSummary]
    rw [uploadLoop_successCount, ← List.range_eq_range',
      uploadLoop_total ops respond p.fileInput.files 0 _ ops.zero rfl
        (fun j _ hj => ht j (by simpa using hj)),
      ← List.range_eq_range']
    simp [Total.text]

theorem uploadClick_report_witness :
    (uploadClick intDoubles
        (fun i => if i = 0 then .resolved 200 (some (.obj [("chunks_added", .num (.int 4))]))
          else if i = 1 then .resolved 500 (some (.obj [("detail", .str "failed")]))
          else .resolved 201 (some (.obj [("chunks_added", .num (.int 3))])))
        .rejected
        { freshPage with
          fileInput := { files := [⟨"a.pdf"⟩, ⟨"b.pdf"⟩, ⟨"c.pdf"⟩], value := "a.pdf" } }
      ).uploadStatus.textContent = "✅ Uploaded 2/3 files (7 chunks)" :=
  (uploadClick_report intDoubles
      (fun i => if i = 0 then .resolved 200 (some (.obj [("chunks_added", .num (.int 4))]))
        else if i = 1 then .resolved 500 (some (.obj [("detail", .str "failed")]))
        else .resolved 201 (some (.obj [("chunks_added", .num (.int 3))])))
      .rejected
      { freshPage with
        fileInput := { files := [⟨"a.pdf"⟩, ⟨"b.pdf"⟩, ⟨"c.pdf"⟩], value := "a.pdf" } }
      (by decide)).2.2.2
    (by
      intro i hi
      have hi3 : i < 3 := hi
      interval_cases i
      · exact fun _ => ⟨.int 4, rfl⟩
      · exact fun hok => absurd hok (by decide)
      · exact fun _ => ⟨.int 3, rfl⟩)

/-- C3, the case the claim misses. One file whose response has status 200 and
a body that does not parse: one response had a success status, yet the loop
counts none and the message reports 0 of 1. -/
theorem uploadClick_unparsed_success_not_counted :
    ((List.range 1).filter
        (fun i => ((fun _ => FetchOutcome.resolved 200 none : Nat → FetchOutcome IntDouble) i
          ).hasSuccessStatus)).length = 1 ∧
    (uploadLoop intDoubles (fun _ => .resolved 200 none) 0 [⟨"a.pdf"⟩]
        { successCount := 0, totalChunksAdded := .num (.int 0), page := freshPage }
      ).successCount = 0 ∧
    (uploadClick intDoubles (fun _ => .resolved 200 none) .rejected
        { freshPage with fileInput := { files := [⟨"a.pdf"⟩], value := "a.pdf" } }
      ).uploadStatus.textContent = "✅ Uploaded 0/1 files (0 chunks)" := by
  refine ⟨by decide, by decide, by decide⟩

/-! ## Asking a question -/

theorem jsTrim_eq_empty_iff (s : String) :
    jsTrim s = "" ↔ ∀ c ∈ s.data, isTrimChar c = true := by
  unfold jsTrim
  rw [String.ext_iff]
  show ((s.data.dropWhile isTrimChar).reverse.dropWhile isTrimChar).reverse = [] ↔ _
  rw [List.reverse_eq_nil_iff, List.dropWhile_eq_nil_iff]
  constructor
  · intro h
    by_cases hnil : s.data.dropWhile isTrimChar = []
    · exact List.dropWhile_eq_nil_iff.mp hnil
    · have h1 := List.head_dropWhile_not isTrimChar s.data hnil
      have h2 := h _ (List.mem_reverse.mpr (List.head_mem hnil))
      rw [h1] at h2
      exact absurd h2 (by decide)
  · intro h x hx
    rw [List.dropWhile_eq_nil_iff.mpr h] at hx
    simp at hx

theorem jsTrim_ne_empty (s : String) (h : ∃ c ∈ s.data, isTrimChar c = false) :
    jsTrim s ≠ "" := by
  intro he
  obtain ⟨c, hc, hf⟩ := h
  have := (jsTrim_eq_empty_iff s).mp he c hc
  rw [hf] at this
  exact absurd this (by decide)

theorem askQuestionBegin_eq (t1 t2 : Nat) (p : Page) (h : jsTrim p.questionInput ≠ "") :
    askQuestionBegin t1 t2 p =
      some
        ({ p with
            chatMessages :=
              p.chatMessages ++
                [userBubble t1 (jsTrim p.questionInput),
                 assistantBubble t2 (spinnerHTML ++ "Thinking...")]
            questionInput := ""
            net := p.net ++ [.sent (queryRequest (jsTrim p.questionInput))] },
         { question := jsTrim p.questionInput, loadingId := "msg_" ++ toString t2 }) := by
  simp [askQuestionBegin, h, addMessage, Page.send, userBubble, assistantBubble]

theorem removeElementById_frame (id : String) (p p' : Page)
    (h : removeElementById id p = .ok p') :
    p'.net = p.net ∧ p'.console = p.console ∧ p'.questionInput = p.questionInput ∧
    p'.uploadStatus = p.uploadStatus ∧ p'.totalChunks = p.totalChunks := by
  unfold removeElementById at h
  cases hg : getElementById id p with
  | none => simp [hg] at h
  | some i =>
    simp only [hg] at h
    injection h with h
    subst h
    simp

theorem askQuestionCatch_net (t3 : Nat) (q : PendingQuery) (e : JSError) (p : Page) :
    (askQuestionCatch t3 q e p).1.net = p.net := by
  unfold askQuestionCatch
  cases h : removeElementById q.loadingId p with
  | error e' => simp
  | ok p' => simp [addMessage, Page.logError, (removeElementById_frame _ _ _ h).1]

theorem askQuestionResume_net {N : Type} (ops : Numbers N) (strPos : String → Bool)
    (t3 : Nat) (out : FetchOutcome N) (q : PendingQuery) (p : Page) :
    (askQuestionResume ops strPos t3 out q p).1.net =
      p.net ++ [.settled (queryRequest q.question)] := by
  unfold askQuestionResume askQuestionTry
  rcases out with _ | ⟨status, _ | data⟩
  · simp [askQuestionCatch_net, Page.settle]
  · simp [askQuestionCatch_net, Page.settle]
  · simp only
    cases h : removeElementById q.loadingId (p.settle (queryRequest q.question)) with
    | error e => simp [askQuestionCatch_net, Page.settle]
    | ok p' =>
      have hn := (removeElementById_frame _ _ _ h).1
      cases ha : answerHTML ops strPos data with
      | error e => simp [askQuestionCatch_net, hn, Page.settle]
      | ok html => simp [addMessage, hn, Page.settle]

/-- Blank and non-blank questions. When the question input is empty or holds
only characters that `trim` strips, `askQuestion` returns at once: the page,
and with it the request log, the message list and the question input, is
unchanged. When it holds some other character, the string assigned to the
`innerHTML` of the user bubble is the trimmed text, the one request of the run
is the POST to /query carrying the trimmed text as question with n_results 3,
and the loading bubble follows the user bubble. -/
theorem askQuestion_blank_or_trimmed {N : Type} (ops : Numbers N) (strPos : String → Bool)
    (t1 t2 t3 : Nat) (out : FetchOutcome N) (p : Page) :
    ((∀ c ∈ p.questionInput.data, isTrimChar c = true) →
      askQuestion ops strPos t1 t2 t3 out p = (p, none)) ∧
    ((∃ c ∈ p.questionInput.data, isTrimChar c = false) →
      ∃ (p' : Page) (q : PendingQuery),
        askQuestionBegin t1 t2 p = some (p', q) ∧
        p'.chatMessages =
          p.chatMessages ++
            [.message
              { id := "msg_" ++ toString t1
                className := "mb-3 text-end"
                bubbleClassName := "d-inline-block p-3 rounded bg-primary text-white"
                bubbleMaxWidth := "80%"
                bubbleInnerHTML := jsTrim p.questionInput },
             .message
              { id := "msg_" ++ toString t2
                className := "mb-3 "
                bubbleClassName := "d-inline-block p-3 rounded bg-light"
                bubbleMaxWidth := "80%"
                bubbleInnerHTML :=
                  "<div class=\"spinner-border spinner-border-sm\" role=\"status\"></div> Thinking..." }] ∧
        p'.net =
          p.net ++
            [.sent { method := "POST", url := "http://localhost:8000/query",
                     headers := [("Content-Type", "application/json")],
                     body := .json (jsTrim p.questionInput) 3 }] ∧
        (askQuestion ops strPos t1 t2 t3 out p).1.net =
          p.net ++
            [.sent { method := "POST", url := "http://localhost:8000/query",
                     headers := [("Content-Type", "application/json")],
                     body := .json (jsTrim p.questionInput) 3 },
             .settled { method := "POST", url := "http://localhost:8000/query",
                        headers := [("Content-Type", "application/json")],
                        body := .json (jsTrim p.questionInput) 3 }]) := by
  constructor
  · intro h
    have he := (jsTrim_eq_empty_iff _).mpr h
    simp [askQuestion, askQuestionBegin, he]
  · intro h
    have hne := jsTrim_ne_empty _ h
    refine ⟨_, _, askQuestionBegin_eq t1 t2 p hne, rfl, rfl, ?_⟩
    simp only [askQuestion, askQuestionBegin_eq t1 t2 p hne, askQuestionResume_net]
    simp
    rfl

theorem appendSources_typed {N : Type} (ops : Numbers N) (vals : List (JSVal N))
    (names : List String)
    (h : List.Forall₂ (fun v s => v.getProp .source = .ok (.str s)) vals names) :
    ∀ (i : Nat) (html : String),
      appendSources ops i vals html =
        .ok (html ++ concatAll ((names.enumFrom i).map (fun e => sourceItem e.1 e.2))) := by
  induction h with
  | nil => intro i html; simp [appendSources, concatAll]
  | cons hv _ ih =>
    intro i html
    simp only [appendSources, hv, ih, List.enumFrom_cons, List.map_cons, concatAll,
      JSVal.toStr, String.append_assoc]

theorem answerHTML_typed {N : Type} (ops : Numbers N) (strPos : String → Bool)
    (fields : List (String × JSVal N)) (a : String) (names : List String)
    (ha : JSVal.lookup "answer" fields = .str a)
    (hs : (JSVal.lookup "sources" fields = .undefined ∧ names = []) ∨
      ∃ vals, JSVal.lookup "sources" fields = .arr vals ∧
        List.Forall₂ (fun v s => v.getProp .source = .ok (.str s)) vals names) :
    answerHTML ops strPos (.obj fields) =
      .ok ("<strong>Answer:</strong><br>" ++ a ++
        (if names = [] then ""
         else sourcesHeader ++ concatAll (names.enum.map (fun e => sourceItem e.1 e.2)))) := by
  have ha' : JSVal.lookup Field.answer.key fields = .str a := ha
  rcases hs with ⟨hu, hn⟩ | ⟨vals, hv, hf⟩
  · have hu' : JSVal.lookup Field.sources.key fields = .undefined := hu
    simp [answerHTML, JSVal.getProp, ha', hu', hn, JSVal.truthy, JSVal.toStr]
  · have hv' : JSVal.lookup Field.sources.key fields = .arr vals := hv
    cases hf with
    | nil =>
      simp [answerHTML, JSVal.getProp, ha', hv', JSVal.truthy, JSVal.toStr,
        JSVal.lengthGtZero]
    | cons hx hrest =>
      have hall := appendSources_typed ops _ _ (List.Forall₂.cons hx hrest) 0
        ("<strong>Answer:</strong><br>" ++ a ++ sourcesHeader)
      simp only [answerHTML, JSVal.getProp, ha', hv', JSVal.truthy, JSVal.toStr,
        JSVal.lengthGtZero, if_true, List.isEmpty_cons, Bool.not_false, hall]
      rw [if_neg (List.cons_ne_nil _ _), ← String.append_assoc]
      rfl

theorem getElementById_isSome_of_mem (id : String) (p : Page) (m : MessageDiv)
    (hm : ChatNode.message m ∈ p.chatMessages) (hid : m.id = id) :
    ∃ i, getElementById id p = some i := by
  unfold getElementById
  have : (p.chatMessages.findIdx? (ChatNode.hasId id)).isSome = true := by
    rw [List.findIdx?_isSome]
    simp only [List.any_eq_true]
    exact ⟨_, hm, by simp [ChatNode.hasId, hid]⟩
  exact Option.isSome_iff_exists.mp this

/-- C5. For a non-blank question and a response whose body is an object with a
string answer and with sources either absent or an array whose elements carry a
string source, `askQuestion` ends without error and the last element of the
message list is an assistant message whose markup is the answer label, the
answer text, and, for a non-empty array, the sources header followed by one
numbered item per source in order; with no source there is no header and no
item. -/
theorem askQuestion_renders_answer {N : Type} (ops : Numbers N) (strPos : String → Bool)
    (t1 t2 t3 status : Nat) (p : Page) (fields : List (String × JSVal N)) (a : String)
    (names : List String)
    (hq : ∃ c ∈ p.questionInput.data, isTrimChar c = false)
    (ha : JSVal.lookup "answer" fields = .str a)
    (hs : (JSVal.lookup "sources" fields = .undefined ∧ names = []) ∨
      ∃ vals, JSVal.lookup "sources" fields = .arr vals ∧
        List.Forall₂ (fun v s => v.getProp .source = .ok (.str s)) vals names) :
    (askQuestion ops strPos t1 t2 t3 (.resolved status (some (.obj fields))) p).2 = none ∧
    (askQuestion ops strPos t1 t2 t3 (.resolved status (some (.obj fields))) p
      ).1.chatMessages.getLast? =
      some (.message
        { id := "msg_" ++ toString t3
          className := "mb-3 "
          bubbleClassName := "d-inline-block p-3 rounded bg-light"
          bubbleMaxWidth := "80%"
          bubbleInnerHTML :=
            "<strong>Answer:</strong><br>" ++ a ++
              (if names = [] then ""
               else "<br><br><strong>📚 Sources:</strong><br>" ++
                 concatAll (names.enum.map (fun e =>
                   "<small><em>" ++ toString (e.1 + 1) ++ ". " ++ e.2 ++
                     "</em></small><br>"))) }) := by
  have hne := jsTrim_ne_empty _ hq
  have hhtml := answerHTML_typed ops strPos fields a names ha hs
  simp only [askQuestion, askQuestionBegin_eq t1 t2 p hne, askQuestionResume, askQuestionTry]
  obtain ⟨i, hi⟩ := getElementById_isSome_of_mem ("msg_" ++ toString t2)
    (Page.settle (queryRequest (jsTrim p.questionInput))
      { p with
        chatMessages :=
          p.chatMessages ++
            [userBubble t1 (jsTrim p.questionInput),
             assistantBubble t2 (spinnerHTML ++ "Thinking...")]
        questionInput := ""
        net := p.net ++ [.sent (queryRequest (jsTrim p.questionInput))] })
    { id := "msg_" ++ toString t2
      className := "mb-3 "
      bubbleClassName := "d-inline-block p-3 rounded bg-light"
      bubbleMaxWidth := "80%"
      bubbleInnerHTML := spinnerHTML ++ "Thinking..." }
    (by simp [Page.settle, assistantBubble]) rfl
  simp only [removeElementById, hi, hhtml]
  refine ⟨trivial, ?_⟩
  simp only [addMessage, List.getLast?_concat]
  rfl

theorem askQuestion_renders_answer_witness :
    (askQuestion intDoubles (fun _ => false) 1000 1001 1002
      (.resolved 200 (some (.obj
        [("answer", .str "42"), ("sources", .arr [.obj [("source", .str "doc1.pdf")]])])))
      { freshPage with questionInput := "What is the answer?" }
      ).1.chatMessages.getLast? =
      some (.message
        { id := "msg_1002"
          className := "mb-3 "
          bubbleClassName := "d-inline-block p-3 rounded bg-light"
          bubbleMaxWidth := "80%"
          bubbleInnerHTML :=
            "<strong>Answer:</strong><br>42<br><br><strong>📚 Sources:</strong><br><small><em>1. doc1.pdf</em></small><br>" }) :=
  (askQuestion_renders_answer intDoubles (fun _ => false) 1000 1001 1002 200
    { freshPage with questionInput := "What is the answer?" }
    [("answer", .str "42"), ("sources", .arr [.obj [("source", .str "doc1.pdf")]])]
    "42" ["doc1.pdf"]
    ⟨'W', by decide, by decide⟩ rfl
    (Or.inr ⟨[.obj [("source", .str "doc1.pdf")]], rfl,
      List.Forall₂.cons rfl List.Forall₂.nil⟩)).2

/-! ## Responses with an error status -/

/-- C7, at the failing input. The user confirms and DELETE /clear resolves
with status 500: the banner shows "Database cleared!" with the success class
and the chat panel is reset to the placeholder, where a rejected request shows
"Error clearing database" with the danger class and keeps the chat. Likewise a
response to POST /query with status 500 and a JSON error body is rendered as
an answer, where a rejected request gives the fixed error message, and a
response to GET /stats with status 500 and a JSON error body empties the chunk
counter, where a rejected request leaves it as it was. -/
theorem clearClick_ignores_status {N : Type} (ops : Numbers N) (strPos : String → Bool) :
    (clearClick ops true
        (.resolved 500 (some (.obj [("detail", .str "Internal Server Error")])))
        .rejected chattedPage).uploadStatus =
      { textContent := "Database cleared!", className := "alert alert-success",
        display := "block" } ∧
    (clearClick ops true
        (.resolved 500 (some (.obj [("detail", .str "Internal Server Error")])))
        .rejected chattedPage).chatMessages = [.html placeholderHTML] ∧
    (clearClick ops true .rejected .rejected chattedPage).uploadStatus =
      { textContent := "Error clearing database", className := "alert alert-danger",
        display := "block" } ∧
    (clearClick ops true .rejected .rejected chattedPage).chatMessages =
      chattedPage.chatMessages ∧
    (askQuestion ops strPos 1000 1001 1002
        (.resolved 500 (some (.obj [("detail", .str "Internal Server Error")])))
        { freshPage with questionInput := "hi" }).1.chatMessages =
      [.html placeholderHTML, userBubble 1000 "hi",
       assistantBubble 1002 "<strong>Answer:</strong><br>undefined"] ∧
    (askQuestion ops strPos 1000 1001 1002 .rejected
        { freshPage with questionInput := "hi" }).1.chatMessages =
      [.html placeholderHTML, userBubble 1000 "hi",
       assistantBubble 1002
         "❌ Error: Could not get answer. Make sure backend is running."] ∧
    (loadStats ops (.resolved 500 (some (.obj [("detail", .str "Internal Server Error")])))
        freshPage).totalChunks = "" ∧
    (loadStats ops .rejected freshPage).totalChunks = "0" := by
  refine ⟨rfl, rfl, rfl, rfl, ?_, ?_, rfl, rfl⟩
  · rfl
  · rfl

/-! ## Message ids and the loading bubble -/

/-- C2, at the failing input. Two calls of `addMessage` that read the same
clock value 1000 give both elements the id "msg_1000"; the two elements differ,
and looking the id up finds the first of them (position 1, the user bubble),
not the loading bubble the second call created (position 2). -/
theorem addMessage_same_reading_same_id :
    (addMessage 1000 "hi" "user" false freshPage).2 = "msg_1000" ∧
    (addMessage 1000 "Thinking..." "assistant" true
        (addMessage 1000 "hi" "user" false freshPage).1).2 = "msg_1000" ∧
    (addMessage 1000 "Thinking..." "assistant" true
        (addMessage 1000 "hi" "user" false freshPage).1).1.chatMessages =
      [.html placeholderHTML, userBubble 1000 "hi",
       assistantBubble 1000 (spinnerHTML ++ "Thinking...")] ∧
    userBubble 1000 "hi" ≠ assistantBubble 1000 (spinnerHTML ++ "Thinking...") ∧
    getElementById "msg_1000"
        (addMessage 1000 "Thinking..." "assistant" true
          (addMessage 1000 "hi" "user" false freshPage).1).1 = some 1 := by
  refine ⟨by decide, by decide, by decide, by decide, by decide⟩

/-- C1, at the failing input. The question "hi" is asked, both bubbles are
created within the same clock reading 1000, and /query answers 200 with the
body {"answer": "42"}. After the run the user bubble is gone and the loading
bubble is still in the message list, followed by the answer. -/
theorem askQuestion_same_reading_keeps_loading {N : Type} (ops : Numbers N)
    (strPos : String → Bool) :
    (askQuestion ops strPos 1000 1000 1001
        (.resolved 200 (some (.obj [("answer", .str "42")])))
        { freshPage with questionInput := "hi" }).1.chatMessages =
      [.html placeholderHTML,
       assistantBubble 1000 (spinnerHTML ++ "Thinking..."),
       assistantBubble 1001 "<strong>Answer:</strong><br>42"] ∧
    userBubble 1000 "hi" ∉
      (askQuestion ops strPos 1000 1000 1001
        (.resolved 200 (some (.obj [("answer", .str "42")])))
        { freshPage with questionInput := "hi" }).1.chatMessages ∧
    (askQuestionBegin 1000 1000 { freshPage with questionInput := "hi" }).map
        (fun r => r.1.chatMessages) =
      some [.html placeholderHTML, userBubble 1000 "hi",
            assistantBubble 1000 (spinnerHTML ++ "Thinking...")] := by
  have h : (askQuestion ops strPos 1000 1000 1001
        (.resolved 200 (some (.obj [("answer", .str "42")])))
        { freshPage with questionInput := "hi" }).1.chatMessages =
      [.html placeholderHTML,
       assistantBubble 1000 (spinnerHTML ++ "Thinking..."),
       assistantBubble 1001 "<strong>Answer:</strong><br>42"] := rfl
  refine ⟨h, ?_, by decide⟩
  rw [h]
  decide

/-- C4, at the failing input. The question "hi" is asked with clock readings
1000, 1001 and 1002, and /query answers 200 with the JSON body null. Reading
the answer throws after the loading bubble was removed; the catch block then
finds no element to remove and throws in turn: the error leaves `askQuestion`,
no error message is appended and nothing is logged. -/
theorem askQuestion_null_body_escapes {N : Type} (ops : Numbers N)
    (strPos : String → Bool) :
    (askQuestion ops strPos 1000 1001 1002 (.resolved 200 (some .null))
        { freshPage with questionInput := "hi" }).2 = some .typeError ∧
    (askQuestion ops strPos 1000 1001 1002 (.resolved 200 (some .null))
        { freshPage with questionInput := "hi" }).1.chatMessages =
      [.html placeholderHTML, userBubble 1000 "hi"] ∧
    (askQuestion ops strPos 1000 1001 1002 (.resolved 200 (some .null))
        { freshPage with questionInput := "hi" }).1.console = [] ∧
    (askQuestion ops strPos 1000 1001 1002 .rejected
        { freshPage with questionInput := "hi" }).1.chatMessages =
      [.html placeholderHTML, userBubble 1000 "hi",
       assistantBubble 1002
         "❌ Error: Could not get answer. Make sure backend is running."] ∧
    (askQuestion ops strPos 1000 1001 1002 .rejected
        { freshPage with questionInput := "hi" }).1.console =
      [{ label := "Query error:", error := .fetchFailed }] := by
  refine ⟨rfl, rfl, rfl, rfl, rfl⟩

/-- C8, at the failing input. The question "<b>hi</b>" is asked. The request
carries these characters as the question, and the same characters are assigned
unescaped to the `innerHTML` of the user bubble, where they are markup and not
text: the browser builds a `b` element from them and shows a bold "hi", not the
trimmed text. -/
theorem askQuestion_question_as_markup :
    (askQuestionBegin 1000 1001 { freshPage with questionInput := " <b>hi</b> " }).map
        (fun r => (r.1.chatMessages, r.1.net, r.2.question)) =
      some
        ([.html placeholderHTML,
          .message
            { id := "msg_1000"
              className := "mb-3 text-end"
              bubbleClassName := "d-inline-block p-3 rounded bg-primary text-white"
              bubbleMaxWidth := "80%"
              bubbleInnerHTML := "<b>hi</b>" },
          assistantBubble 1001 (spinnerHTML ++ "Thinking...")],
         [.sent { method := "POST", url := "http://localhost:8000/query",
                  headers := [("Content-Type", "application/json")],
                  body := .json "<b>hi</b>" 3 }],
         "<b>hi</b>") := by
  decide

end DocSearch
